import Mathlib

/-!
Shallow embedding of `celery_leased_beat/lease_mixin.py` (class
`LeasedSchedulerMixin`): the lease state machine driving a Celery beat
scheduler, with acquisition, periodic renewal under a bounded failure
tolerance, and release on close.

Modelling conventions:
* Python `int` fields become `Int`; monotonic-clock values (`time.monotonic`,
  Python floats) and tick return values become `Rat`.
* Backend calls (`Lock.acquire`, `Lock.reacquire`, `Lock.release`) are
  modelled by outcome oracles supplied as input to each invocation; a caught
  `RedisError`/`LockError` is the `backendError` outcome.
* `tick` and `close` additionally report the list of backend lock operations
  performed and whether they delegated to the underlying engine
  (`super().tick()` / `super().close()`).  Both are total functions: the
  embedded code catches all backend errors, so no exception escapes.
-/

namespace CeleryLeasedBeat

/-- Outcome of `Lock.acquire(blocking=False, token=...)` as seen inside
`_acquire_lock`: the call returned `True`, returned `False` (resource busy),
or raised a `RedisError`/`LockError` that the `except` clause catches. -/
inductive AcquireOutcome
  | success
  | busy
  | backendError
deriving DecidableEq

/-- Outcome of `Lock.reacquire()` as seen inside `_renew_lock`: the call
returned normally, or raised a `RedisError`/`LockError`. -/
inductive RenewOutcome
  | success
  | backendError
deriving DecidableEq

/-- Outcome of `Lock.release()` as seen inside `close`: the call returned
normally, or raised a `RedisError`/`LockError`. -/
inductive ReleaseOutcome
  | success
  | backendError
deriving DecidableEq

/-- A backend lock operation performed during one invocation. -/
inductive BackendOp
  | acquire
  | renew
  | release
deriving DecidableEq

/-- Python truthiness test for an optional string: `not x` is true when the
value is absent (`None`) or the empty string. -/
def pyFalsy : Option String → Bool
  | none => true
  | some s => s.isEmpty

/-- The fields of `LeasedSchedulerMixin` relevant to the lease state machine
(`self.lease_url`, `self.lease_options.get('master_name')`,
`self.lease_lock_key`, `self.lease_lock_ttl`, `self.lease_interval`,
`self._lease_renew_threshold`, `self._lease_lock_acquired`,
`self._lease_renew_fail_count`, `self._lease_last_acquire_time`). -/
structure Scheduler where
  lease_url : String
  master_name : Option String
  lease_lock_key : String
  lease_lock_ttl : Int
  lease_interval : Int
  lease_renew_threshold : Int
  lease_lock_acquired : Bool
  lease_renew_fail_count : Int
  lease_last_acquire_time : Rat
deriving DecidableEq, Inhabited

/-- The configuration keys `__init__` reads from `self.app.conf`
(`None` models an absent key; `master_name` is the discovery-mode key of
`CELERY_LEASE_OPTIONS`). -/
structure AppConf where
  CELERY_LEASE_URL : Option String
  CELERY_LEASE_KEY : Option String
  CELERY_LEASE_LOCK_TTL : Option Int
  CELERY_LEASE_INTERVAL : Option Int
  master_name : Option String
deriving DecidableEq

/-- `LeasedSchedulerMixin.__init__`: raises `ValueError` when
`CELERY_LEASE_URL` is unset/empty, otherwise builds the initial state.
Python `//` on ints is floor division, i.e. `Int.fdiv`. -/
def leasedInit (conf : AppConf) : Except String Scheduler :=
  if pyFalsy conf.CELERY_LEASE_URL then
    .error "CELERY_LEASE_URL must be set"
  else
    .ok
      { lease_url := conf.CELERY_LEASE_URL.getD ""
        master_name := conf.master_name
        lease_lock_key := conf.CELERY_LEASE_KEY.getD "celery_lease:lock"
        lease_lock_ttl := conf.CELERY_LEASE_LOCK_TTL.getD 60
        lease_interval := conf.CELERY_LEASE_INTERVAL.getD 15
        lease_renew_threshold :=
          max 1
            ((conf.CELERY_LEASE_LOCK_TTL.getD 60).fdiv
              (conf.CELERY_LEASE_INTERVAL.getD 15) - 1)
        lease_lock_acquired := false
        lease_renew_fail_count := 0
        lease_last_acquire_time := 0 }

/-- The kind of handle the lazy `lease_redis_client` property resolves to. -/
inductive ClientKind
  | sentinelMaster
  | direct
deriving DecidableEq

/-- Python `s.startswith(p)`, stated on the underlying character lists so
that concrete instances reduce in the kernel (extensionally the same test
as `String.startsWith`). -/
def strStartsWith (s p : String) : Bool :=
  p.data.isPrefixOf s.data

/-- `True` when `__init__` returns normally on this configuration. -/
def initOk (conf : AppConf) : Bool :=
  match leasedInit conf with
  | .ok _ => true
  | .error _ => false

/-- The `lease_redis_client` property (first access): under a
`sentinel://` URL it raises `ValueError` when `master_name` is unset,
otherwise resolves a handle.  No backend/network call is modelled because
the error is raised before any connection is attempted. -/
def lease_redis_client (s : Scheduler) : Except String ClientKind :=
  if strStartsWith s.lease_url "sentinel://" then
    if pyFalsy s.master_name then
      .error "CELERY_LEASE_OPTIONS.master_name must be set for sentinel"
    else
      .ok .sentinelMaster
  else
    .ok .direct

/-- `self._time_since_last_lease` evaluated at monotonic time `now`. -/
def time_since_last_lease (s : Scheduler) (now : Rat) : Rat :=
  now - s.lease_last_acquire_time

/-- `_acquire_lock`: on success record the acquire time, set the acquired
flag, reset the failure count and return `True`; on `False` or a caught
backend error return `False` with the state unchanged. -/
def acquire_lock (s : Scheduler) (now : Rat) (out : AcquireOutcome) :
    Bool × Scheduler :=
  match out with
  | .success =>
      (true,
        { s with
            lease_last_acquire_time := now
            lease_lock_acquired := true
            lease_renew_fail_count := 0 })
  | .busy => (false, s)
  | .backendError => (false, s)

/-- `_renew_lock`: on success record the renew time and reset the failure
count; on a caught backend error increment the failure count, and once it is
no longer below `_lease_renew_threshold` also clear the acquired flag. -/
def renew_lock (s : Scheduler) (now : Rat) (out : RenewOutcome) :
    Bool × Scheduler :=
  match out with
  | .success =>
      (true,
        { s with
            lease_last_acquire_time := now
            lease_renew_fail_count := 0 })
  | .backendError =>
      let c := s.lease_renew_fail_count + 1
      if c < s.lease_renew_threshold then
        (false, { s with lease_renew_fail_count := c })
      else
        (false,
          { s with
              lease_renew_fail_count := c
              lease_lock_acquired := false })

/-- Environment of one `tick` invocation: the monotonic clock reading, the
backend outcome an acquire attempt would observe, the backend outcome a
renew attempt would observe, and the value `super().tick()` would return. -/
structure TickInput where
  now : Rat
  acquireOutcome : AcquireOutcome
  renewOutcome : RenewOutcome
  superTick : Rat
deriving DecidableEq

/-- Result of one `tick` invocation: the returned wait time, the post state,
the backend lock operations performed, and whether `super().tick()` ran. -/
structure TickResult where
  wait : Rat
  state : Scheduler
  ops : List BackendOp
  engineTicked : Bool
deriving DecidableEq

/-- Lines 155-159 of `tick`: holding the lock, return
`min(lease_interval - time_since_last_lease, super().tick())`. -/
def heldResult (s : Scheduler) (inp : TickInput) (ops : List BackendOp) :
    TickResult :=
  { wait :=
      min ((s.lease_interval : Rat) - time_since_last_lease s inp.now)
        inp.superTick
    state := s
    ops := ops
    engineTicked := true }

/-- `tick`: if holding and the lease is still fresh do nothing; if holding
and stale attempt one renew (returning `lease_interval` early on failure);
otherwise attempt one acquire (returning `lease_interval` early on
failure); in every held continuation delegate to `super().tick()`. -/
def tick (s : Scheduler) (inp : TickInput) : TickResult :=
  if s.lease_lock_acquired then
    if time_since_last_lease s inp.now < (s.lease_interval : Rat) then
      heldResult s inp []
    else
      match renew_lock s inp.now inp.renewOutcome with
      | (true, s') => heldResult s' inp [.renew]
      | (false, s') =>
          { wait := (s.lease_interval : Rat)
            state := s'
            ops := [.renew]
            engineTicked := false }
  else
    match acquire_lock s inp.now inp.acquireOutcome with
    | (true, s') => heldResult s' inp [.acquire]
    | (false, s') =>
        { wait := (s.lease_interval : Rat)
          state := s'
          ops := [.acquire]
          engineTicked := false }

/-- Result of `close`: the post state, the backend lock operations
performed, and whether `super().close()` ran. -/
structure CloseResult where
  state : Scheduler
  ops : List BackendOp
  engineClosed : Bool
deriving DecidableEq

/-- `close`: when the acquired flag is set attempt one release, swallowing a
caught backend error; in every case delegate to `super().close()`.  Note the
source never clears `_lease_lock_acquired` here. -/
def close (s : Scheduler) (out : ReleaseOutcome) : CloseResult :=
  if s.lease_lock_acquired then
    match out with
    | .success => { state := s, ops := [.release], engineClosed := true }
    | .backendError => { state := s, ops := [.release], engineClosed := true }
  else
    { state := s, ops := [], engineClosed := true }

/-- One externally observable call on the controller. -/
inductive Step
  | tickStep (inp : TickInput)
  | closeStep (out : ReleaseOutcome)

/-- State reached after one call. -/
def applyStep (s : Scheduler) : Step → Scheduler
  | .tickStep inp => (tick s inp).state
  | .closeStep out => (close s out).state

/-- State reached after a sequence of calls. -/
def run (s : Scheduler) : List Step → Scheduler
  | [] => s
  | st :: rest => run (applyStep s st) rest

/-- The local invariant of the state machine: the tolerance threshold is at
least 1, and while the lock is held the consecutive renewal-failure count
stays strictly below the threshold. -/
def Inv (s : Scheduler) : Prop :=
  1 ≤ s.lease_renew_threshold ∧
    (s.lease_lock_acquired = true →
      s.lease_renew_fail_count < s.lease_renew_threshold)

/-- Input of the `k`-th tick of the consecutive-renewal-failure scenario:
the clock has advanced `k + 1` renewal intervals past the last successful
acquire/renew of the starting state `s₀`, every renew attempt observes a
backend error, and every acquire attempt observes a busy resource. -/
def failInput (s₀ : Scheduler) (k : Nat) : TickInput :=
  { now := s₀.lease_last_acquire_time + (k + 1) * (s₀.lease_interval : Rat)
    acquireOutcome := .busy
    renewOutcome := .backendError
    superTick := 0 }

/-- State after `k` consecutive failing-renewal ticks starting from `s₀`. -/
def iterFail (s₀ : Scheduler) : Nat → Scheduler
  | 0 => s₀
  | k + 1 => (tick (iterFail s₀ k) (failInput s₀ k)).state

/-- A concrete direct-endpoint configuration (TTL 60, interval 15, the
documented defaults). -/
def confExample : AppConf :=
  { CELERY_LEASE_URL := some "redis://localhost:6379/0"
    CELERY_LEASE_KEY := none
    CELERY_LEASE_LOCK_TTL := some 60
    CELERY_LEASE_INTERVAL := some 15
    master_name := none }

/-- The controller state `__init__` builds from `confExample`. -/
def initExample : Scheduler :=
  (leasedInit confExample).toOption.getD default

/-- A tick environment in which an acquire attempt succeeds at time 5. -/
def acquireTickInput : TickInput :=
  { now := 5
    acquireOutcome := .success
    renewOutcome := .success
    superTick := 0 }

/-- A held controller state: `initExample` after one successful acquiring
tick. -/
def heldExample : Scheduler :=
  (tick initExample acquireTickInput).state

/-- A direct configuration with TTL 10 and interval 3 (a non-dividing
ratio). -/
def conf10_3 : AppConf :=
  { CELERY_LEASE_URL := some "redis://localhost:6379/0"
    CELERY_LEASE_KEY := none
    CELERY_LEASE_LOCK_TTL := some 10
    CELERY_LEASE_INTERVAL := some 3
    master_name := none }

/-- The controller state `__init__` builds from `conf10_3`. -/
def init10_3 : Scheduler :=
  (leasedInit conf10_3).toOption.getD default

/-- A direct configuration with TTL 10 and interval 10. -/
def conf10_10 : AppConf :=
  { CELERY_LEASE_URL := some "redis://localhost:6379/0"
    CELERY_LEASE_KEY := none
    CELERY_LEASE_LOCK_TTL := some 10
    CELERY_LEASE_INTERVAL := some 10
    master_name := none }

/-- The controller state `__init__` builds from `conf10_10`. -/
def init10_10 : Scheduler :=
  (leasedInit conf10_10).toOption.getD default

/-- A discovery-mode (sentinel) configuration that does not name a
primary. -/
def sentinelConfNoMaster : AppConf :=
  { CELERY_LEASE_URL := some "sentinel://localhost:26379"
    CELERY_LEASE_KEY := none
    CELERY_LEASE_LOCK_TTL := none
    CELERY_LEASE_INTERVAL := none
    master_name := none }

end CeleryLeasedBeat

namespace CeleryLeasedBeat

/-- Helper: one `tick` preserves the local invariant. -/
theorem tick_preserves_inv (s : Scheduler) (inp : TickInput) (h : Inv s) :
    Inv (tick s inp).state := by
  obtain ⟨h1, h2⟩ := h
  obtain ⟨now, aout, rout, sup⟩ := inp
  cases hA : s.lease_lock_acquired
  · cases aout <;>
      simp_all [tick, acquire_lock, heldResult, Inv] <;> omega
  · by_cases hF : time_since_last_lease s now < (s.lease_interval : Rat)
    · simp_all [tick, heldResult, Inv]
    · cases rout
      · simp only [tick, hA, eq_self_iff_true, if_true]
        rw [if_neg hF]
        simp_all [renew_lock, heldResult, Inv]
        omega
      · simp only [tick, hA, eq_self_iff_true, if_true]
        rw [if_neg hF]
        simp only [renew_lock]
        by_cases hc :
            s.lease_renew_fail_count + 1 < s.lease_renew_threshold
        · rw [if_pos hc]
          simp_all [Inv]
        · rw [if_neg hc]
          simp_all [Inv]

/-- Helper: `close` preserves the local invariant. -/
theorem close_preserves_inv (s : Scheduler) (out : ReleaseOutcome)
    (h : Inv s) : Inv (close s out).state := by
  cases hA : s.lease_lock_acquired <;> cases out <;>
    simpa [close, hA] using h

/-- Helper: every run of the state machine preserves the local
invariant. -/
theorem run_preserves_inv (steps : List Step) (s : Scheduler) (h : Inv s) :
    Inv (run s steps) := by
  induction steps generalizing s with
  | nil => exact h
  | cons st rest ih =>
      cases st with
      | tickStep inp => exact ih _ (tick_preserves_inv s inp h)
      | closeStep out => exact ih _ (close_preserves_inv s out h)

/-- Helper: the state built by `__init__` satisfies the local invariant. -/
theorem leasedInit_inv (conf : AppConf) (s : Scheduler)
    (hs : leasedInit conf = .ok s) : Inv s := by
  unfold leasedInit at hs
  by_cases hu : pyFalsy conf.CELERY_LEASE_URL
  · rw [if_pos hu] at hs
    exact absurd hs (by simp)
  · rw [if_neg hu] at hs
    cases hs
    exact ⟨le_max_left _ _, by simp⟩

/-- C9: in every state reachable from a constructed initial state by any
sequence of `tick` and `close` calls, the tolerance threshold is at least
1, and whenever possession is held the consecutive renewal-failure count
is strictly below the threshold; moreover every successful acquire or
renew resets the count to 0. -/
theorem C9_reachable_invariant (conf : AppConf) (s₀ : Scheduler)
    (hs : leasedInit conf = .ok s₀) (steps : List Step) :
    (1 ≤ (run s₀ steps).lease_renew_threshold ∧
      ((run s₀ steps).lease_lock_acquired = true →
        (run s₀ steps).lease_renew_fail_count <
          (run s₀ steps).lease_renew_threshold)) ∧
    (∀ (s : Scheduler) (now : Rat),
      (acquire_lock s now .success).2.lease_renew_fail_count = 0 ∧
      (renew_lock s now .success).2.lease_renew_fail_count = 0) := by
  refine ⟨run_preserves_inv steps s₀ (leasedInit_inv conf s₀ hs), ?_⟩
  intro s now
  exact ⟨rfl, rfl⟩

/-- C9 witness: the example configuration, run through one acquiring tick
followed by a close. -/
theorem C9_reachable_invariant_witness :
    leasedInit confExample = Except.ok initExample ∧
    1 ≤ (run initExample
      [Step.tickStep acquireTickInput,
        Step.closeStep ReleaseOutcome.success]).lease_renew_threshold :=
  ⟨rfl,
    (C9_reachable_invariant confExample initExample rfl
      [Step.tickStep acquireTickInput,
        Step.closeStep ReleaseOutcome.success]).1.1⟩

/-- C4: in `Released` state, when the acquire attempt observes a busy
resource or a caught backend error, `tick` leaves the state unchanged (in
particular still `Released`), returns the renewal interval, does not invoke
the engine's own `tick`, and the backend failure is converted to the
boolean `false` by `_acquire_lock` (no exception escapes: `tick` is a total
function of the outcome). -/
theorem C4_acquisition_failure (s : Scheduler) (inp : TickInput)
    (hR : s.lease_lock_acquired = false)
    (hA : inp.acquireOutcome = .busy ∨ inp.acquireOutcome = .backendError) :
    (tick s inp).state = s ∧
    (tick s inp).state.lease_lock_acquired = false ∧
    (tick s inp).wait = (s.lease_interval : Rat) ∧
    (tick s inp).engineTicked = false ∧
    (acquire_lock s inp.now inp.acquireOutcome).1 = false := by
  rcases hA with h | h <;> simp [tick, hR, h, acquire_lock]

/-- C4 witness: the released initial state of the example configuration,
ticked against a busy backend. -/
theorem C4_acquisition_failure_witness :
    initExample.lease_lock_acquired = false ∧
    (tick initExample
      { now := 5, acquireOutcome := .busy, renewOutcome := .success,
        superTick := 0 }).state = initExample :=
  ⟨by decide,
    (C4_acquisition_failure initExample
      { now := 5, acquireOutcome := .busy, renewOutcome := .success,
        superTick := 0 } (by decide) (Or.inl rfl)).1⟩

/-- C5 counterexample: a discovery-mode (sentinel) configuration that does
not name a primary is accepted by `__init__` — construction does not raise;
the `ValueError` only appears at the later, lazy resolution of the backend
client. -/
theorem C5_construction_does_not_raise :
    pyFalsy sentinelConfNoMaster.master_name = true ∧
    strStartsWith (sentinelConfNoMaster.CELERY_LEASE_URL.getD "")
      "sentinel://" = true ∧
    initOk sentinelConfNoMaster = true := by
  decide

/-- C5 (amended): for every discovery-mode configuration with a set URL and
no named primary, construction succeeds, and the configuration error is
raised at the first (lazy) resolution of the backend client — which happens
before any backend call, but only once a tick first touches the client. -/
theorem C5_lazy_sentinel_validation (conf : AppConf)
    (hUrl : pyFalsy conf.CELERY_LEASE_URL = false)
    (hSent : strStartsWith (conf.CELERY_LEASE_URL.getD "")
      "sentinel://" = true)
    (hM : pyFalsy conf.master_name = true) :
    ∃ s : Scheduler, leasedInit conf = .ok s ∧
      lease_redis_client s =
        .error "CELERY_LEASE_OPTIONS.master_name must be set for sentinel" := by
  unfold leasedInit
  rw [hUrl]
  simp only [Bool.false_eq_true, if_false]
  refine ⟨_, rfl, ?_⟩
  unfold lease_redis_client
  simp [hSent, hM]

/-- C5 witness: the concrete sentinel configuration without `master_name`. -/
theorem C5_lazy_sentinel_validation_witness :
    pyFalsy sentinelConfNoMaster.CELERY_LEASE_URL = false ∧
    (∃ s : Scheduler, leasedInit sentinelConfNoMaster = .ok s ∧
      lease_redis_client s =
        .error "CELERY_LEASE_OPTIONS.master_name must be set for sentinel") :=
  ⟨by decide,
    C5_lazy_sentinel_validation sentinelConfNoMaster (by decide) (by decide)
      (by decide)⟩

/-- C6 counterexample: `close` on a held controller leaves the local
possession flag at `Held` — the source never clears
`_lease_lock_acquired` in `close`, so possession is not reset to
`Released` there. -/
theorem C6_close_leaves_flag_held :
    heldExample.lease_lock_acquired = true ∧
    (close heldExample ReleaseOutcome.success).state.lease_lock_acquired
      = true := by
  decide

/-- C6 (amended): after `close()` on a held controller a backend release is
attempted and the engine is shut down, but the local possession state is
left unchanged — still `Held`; possession is reset to `Released` only by
the renewal-failure tolerance being exhausted (as `_renew_lock` does when
the incremented failure count reaches the threshold). -/
theorem C6_close_does_not_reset_possession (s : Scheduler)
    (out : ReleaseOutcome) (now : Rat)
    (h : s.lease_lock_acquired = true) :
    (close s out).state = s ∧
    (close s out).ops = [BackendOp.release] ∧
    (close s out).state.lease_lock_acquired = true ∧
    (s.lease_renew_threshold ≤ s.lease_renew_fail_count + 1 →
      (renew_lock s now .backendError).2.lease_lock_acquired = false) := by
  cases out <;>
    simp [close, renew_lock, h] <;>
    intro hle <;>
    simp [not_lt.mpr hle]

/-- C6 witness: the concrete held state, closed with a successful backend
release at time 20. -/
theorem C6_close_does_not_reset_possession_witness :
    heldExample.lease_lock_acquired = true ∧
    (close heldExample ReleaseOutcome.success).state = heldExample :=
  ⟨by decide,
    (C6_close_does_not_reset_possession heldExample ReleaseOutcome.success 20
      (by decide)).1⟩

/-- C7: `close` always delegates to the engine's own `close` and never
errors (it is a total function of the release outcome); in `Released`
state it performs no backend operation; in `Held` state it performs
exactly one release attempt whatever the backend outcome, leaving the
local state unchanged in every case. -/
theorem C7_close_behaviour (s : Scheduler) (out : ReleaseOutcome) :
    (close s out).engineClosed = true ∧
    (close s out).state = s ∧
    (close s out).ops =
      (if s.lease_lock_acquired then [BackendOp.release] else []) := by
  cases hA : s.lease_lock_acquired <;> cases out <;> simp [close, hA]

/-- Helper: a failing renewal leaves the count incremented and clears the
acquired flag exactly when the incremented count is no longer below the
threshold. -/
theorem renew_lock_fail (s : Scheduler) (now : Rat) :
    (renew_lock s now .backendError).2 =
      { s with
          lease_renew_fail_count := s.lease_renew_fail_count + 1
          lease_lock_acquired :=
            (decide (s.lease_renew_fail_count + 1 <
              s.lease_renew_threshold) && s.lease_lock_acquired) } := by
  by_cases hc : s.lease_renew_fail_count + 1 < s.lease_renew_threshold <;>
    simp [renew_lock, hc]

/-- Helper: a held, stale tick whose renew attempt observes a backend
error returns the renewal interval, performs exactly the renew operation,
skips the engine tick, and moves to the `renew_lock` failure state. -/
theorem tick_renew_fail (s : Scheduler) (inp : TickInput)
    (hH : s.lease_lock_acquired = true)
    (hr : inp.renewOutcome = .backendError)
    (hF : ¬ time_since_last_lease s inp.now < (s.lease_interval : Rat)) :
    tick s inp =
      { wait := (s.lease_interval : Rat)
        state := (renew_lock s inp.now .backendError).2
        ops := [BackendOp.renew]
        engineTicked := false } := by
  obtain ⟨now, aout, rout, sup⟩ := inp
  cases rout
  · simp at hr
  · simp only [tick, hH, eq_self_iff_true, if_true]
    rw [if_neg hF]
    simp only [renew_lock]
    by_cases hc : s.lease_renew_fail_count + 1 < s.lease_renew_threshold
    · rw [if_pos hc]
    · rw [if_neg hc]

/-- Helper: in the failing-renewal scenario the clock has always advanced
at least one renewal interval past the last successful acquire/renew, so
the freshness test of `tick` fails. -/
theorem failInput_stale (s₀ : Scheduler) (hI : 0 ≤ s₀.lease_interval)
    (k : Nat) (S : Scheduler)
    (hlast : S.lease_last_acquire_time = s₀.lease_last_acquire_time)
    (hitv : S.lease_interval = s₀.lease_interval) :
    ¬ time_since_last_lease S (failInput s₀ k).now <
      (S.lease_interval : Rat) := by
  simp only [time_since_last_lease, failInput, hlast, hitv]
  rw [not_lt]
  have hQ : (0 : ℚ) ≤ ((s₀.lease_interval : Int) : ℚ) := by
    exact_mod_cast hI
  have hk0 : (0 : ℚ) ≤ (k : ℚ) * ((s₀.lease_interval : Int) : ℚ) :=
    mul_nonneg (Nat.cast_nonneg k) hQ
  linarith

/-- Helper: after `k ≤ threshold` consecutive failing-renewal ticks from a
held state with zero failure count, the failure count is exactly `k`,
possession is held exactly while `k` is below the threshold, and every
other field is unchanged. -/
theorem iterFail_spec (s₀ : Scheduler)
    (hH : s₀.lease_lock_acquired = true)
    (hc : s₀.lease_renew_fail_count = 0)
    (hT : 1 ≤ s₀.lease_renew_threshold)
    (hI : 0 ≤ s₀.lease_interval) :
    ∀ k : Nat, (k : Int) ≤ s₀.lease_renew_threshold →
      iterFail s₀ k =
        { s₀ with
            lease_renew_fail_count := (k : Int)
            lease_lock_acquired :=
              decide ((k : Int) < s₀.lease_renew_threshold) } := by
  intro k
  induction k with
  | zero =>
      intro _
      have hd : decide ((0 : Int) < s₀.lease_renew_threshold) = true :=
        decide_eq_true (lt_of_lt_of_le zero_lt_one hT)
      simp only [iterFail, Nat.cast_zero, hd]
      rw [← hc, ← hH]
  | succ k ih =>
      intro hk
      have hklt : (k : Int) < s₀.lease_renew_threshold := by
        push_cast at hk
        omega
      have hdk : decide ((k : Int) < s₀.lease_renew_threshold) = true :=
        decide_eq_true hklt
      have hH2 : ({ s₀ with
          lease_renew_fail_count := (k : Int)
          lease_lock_acquired :=
            decide ((k : Int) < s₀.lease_renew_threshold) } :
          Scheduler).lease_lock_acquired = true := by
        simpa using hdk
      have hF2 : ¬ time_since_last_lease
          ({ s₀ with
            lease_renew_fail_count := (k : Int)
            lease_lock_acquired :=
              decide ((k : Int) < s₀.lease_renew_threshold) } : Scheduler)
          (failInput s₀ k).now <
          ((({ s₀ with
            lease_renew_fail_count := (k : Int)
            lease_lock_acquired :=
              decide ((k : Int) < s₀.lease_renew_threshold) } :
            Scheduler).lease_interval : Int) : ℚ) :=
        failInput_stale s₀ hI k _ rfl rfl
      rw [iterFail, ih hklt.le, tick_renew_fail _ _ hH2 rfl hF2]
      rw [renew_lock_fail]
      simp [hdk, Nat.cast_succ]

/-- C1: from a held controller with zero failure count and tolerance
threshold T, after exactly T-1 consecutive renewal failures the
controller is still held; on the T-th consecutive failure it transitions
to released; and every failing tick returns the renewal interval as the
wait time (and skips the engine's own tick). -/
theorem C1_bounded_renewal_tolerance (s₀ : Scheduler)
    (hH : s₀.lease_lock_acquired = true)
    (hc : s₀.lease_renew_fail_count = 0)
    (hT : 1 ≤ s₀.lease_renew_threshold)
    (hI : 0 ≤ s₀.lease_interval) :
    (iterFail s₀
      (s₀.lease_renew_threshold.toNat - 1)).lease_lock_acquired = true ∧
    (iterFail s₀
      s₀.lease_renew_threshold.toNat).lease_lock_acquired = false ∧
    ∀ k : Nat, (k : Int) < s₀.lease_renew_threshold →
      (tick (iterFail s₀ k) (failInput s₀ k)).wait =
        (s₀.lease_interval : Rat) ∧
      (tick (iterFail s₀ k) (failInput s₀ k)).engineTicked = false := by
  refine ⟨?_, ?_, ?_⟩
  · rw [iterFail_spec s₀ hH hc hT hI _ (by omega)]
    simp only [decide_eq_true_eq]
    omega
  · rw [iterFail_spec s₀ hH hc hT hI _ (by omega)]
    simp only [decide_eq_false_iff_not]
    omega
  · intro k hk
    have hSk := iterFail_spec s₀ hH hc hT hI k hk.le
    have hH2 : (iterFail s₀ k).lease_lock_acquired = true := by
      rw [hSk]
      simpa using decide_eq_true hk
    have hF2 : ¬ time_since_last_lease (iterFail s₀ k)
        (failInput s₀ k).now < ((iterFail s₀ k).lease_interval : Rat) :=
      failInput_stale s₀ hI k _ (by rw [hSk]) (by rw [hSk])
    rw [tick_renew_fail _ _ hH2 rfl hF2]
    refine ⟨?_, rfl⟩
    rw [hSk]

/-- C1 witness: the held example controller (TTL 60, interval 15, hence
threshold 3) survives 2 consecutive renewal failures and concedes on the
third. -/
theorem C1_bounded_renewal_tolerance_witness :
    (heldExample.lease_lock_acquired = true ∧
      heldExample.lease_renew_fail_count = 0 ∧
      1 ≤ heldExample.lease_renew_threshold ∧
      0 ≤ heldExample.lease_interval ∧
      heldExample.lease_renew_threshold = 3) ∧
    (iterFail heldExample
      (heldExample.lease_renew_threshold.toNat - 1)).lease_lock_acquired
        = true ∧
    (iterFail heldExample
      heldExample.lease_renew_threshold.toNat).lease_lock_acquired
        = false :=
  ⟨⟨by decide, by decide, by decide, by decide, by decide⟩,
    (C1_bounded_renewal_tolerance heldExample (by decide) (by decide)
      (by decide) (by decide)).1,
    (C1_bounded_renewal_tolerance heldExample (by decide) (by decide)
      (by decide) (by decide)).2.1⟩

/-- C2: for every configuration with positive integer TTL and positive
integer renewal interval, the tolerance threshold computed once at
construction equals `max(1, floor(TTL / interval) - 1)` exactly, with
`floor` the real floor of the ratio (Python `//` is floor division). -/
theorem C2_tolerance_formula (ttl interval : Int) (conf : AppConf)
    (s : Scheduler)
    (_ht : 0 < ttl) (hi : 0 < interval)
    (hT : conf.CELERY_LEASE_LOCK_TTL = some ttl)
    (hI : conf.CELERY_LEASE_INTERVAL = some interval)
    (hs : leasedInit conf = .ok s) :
    s.lease_renew_threshold = max 1 (⌊(ttl : ℚ) / (interval : ℚ)⌋ - 1) := by
  unfold leasedInit at hs
  by_cases hu : pyFalsy conf.CELERY_LEASE_URL
  · rw [if_pos hu] at hs
    exact absurd hs (by simp)
  · rw [if_neg hu] at hs
    cases hs
    show max 1 ((conf.CELERY_LEASE_LOCK_TTL.getD 60).fdiv
      (conf.CELERY_LEASE_INTERVAL.getD 15) - 1) = _
    rw [hT, hI]
    simp only [Option.getD_some]
    have h1 : ((interval.toNat : ℕ) : ℚ) = (interval : ℚ) := by
      rw [← Int.cast_natCast (R := ℚ), Int.toNat_of_nonneg hi.le]
    have h2 : ⌊(ttl : ℚ) / (interval : ℚ)⌋ = ttl / interval := by
      rw [← h1, Rat.floor_intCast_div_natCast, Int.toNat_of_nonneg hi.le]
    rw [h2, Int.fdiv_eq_ediv ttl hi.le]

/-- C2 witness: the three configurations named by the claim, with the
threshold values 3, 2 and 1 they produce. -/
theorem C2_tolerance_formula_witness :
    (initExample.lease_renew_threshold = 3 ∧
      init10_3.lease_renew_threshold = 2 ∧
      init10_10.lease_renew_threshold = 1) ∧
    initExample.lease_renew_threshold =
      max 1 (⌊((60 : Int) : ℚ) / ((15 : Int) : ℚ)⌋ - 1) ∧
    init10_3.lease_renew_threshold =
      max 1 (⌊((10 : Int) : ℚ) / ((3 : Int) : ℚ)⌋ - 1) ∧
    init10_10.lease_renew_threshold =
      max 1 (⌊((10 : Int) : ℚ) / ((10 : Int) : ℚ)⌋ - 1) :=
  ⟨⟨by decide, by decide, by decide⟩,
    C2_tolerance_formula 60 15 confExample initExample (by decide) (by decide)
      rfl rfl rfl,
    C2_tolerance_formula 10 3 conf10_3 init10_3 (by decide) (by decide)
      rfl rfl rfl,
    C2_tolerance_formula 10 10 conf10_10 init10_10 (by decide) (by decide)
      rfl rfl rfl⟩

/-- C3: whenever `tick` proceeds to the held continuation (fresh lease,
successful renewal, or fresh acquisition — exactly the invocations that
end `Held` and run the engine's own tick), the returned wait time equals
the minimum of (renewal interval minus time elapsed since the last
successful acquire/renew) and the engine's requested delay, and therefore
never exceeds the time remaining until the lease needs renewing. -/
theorem C3_wait_time_bound (s : Scheduler) (inp : TickInput)
    (h : (tick s inp).engineTicked = true) :
    (tick s inp).state.lease_lock_acquired = true ∧
    (tick s inp).wait =
      min ((s.lease_interval : Rat) -
        (inp.now - (tick s inp).state.lease_last_acquire_time))
        inp.superTick ∧
    (tick s inp).wait ≤
      (s.lease_interval : Rat) -
        (inp.now - (tick s inp).state.lease_last_acquire_time) := by
  suffices h2 : (tick s inp).state.lease_lock_acquired = true ∧
      (tick s inp).wait =
        min ((s.lease_interval : Rat) -
          (inp.now - (tick s inp).state.lease_last_acquire_time))
          inp.superTick by
    exact ⟨h2.1, h2.2, h2.2 ▸ min_le_left _ _⟩
  obtain ⟨now, aout, rout, sup⟩ := inp
  cases hA : s.lease_lock_acquired
  · cases aout <;>
      simp_all [tick, acquire_lock, heldResult, time_since_last_lease]
  · by_cases hF : time_since_last_lease s now < (s.lease_interval : Rat)
    · simp_all [tick, heldResult, time_since_last_lease]
    · cases rout
      · simp only [tick, hA, eq_self_iff_true, if_true]
        rw [if_neg hF]
        simp [renew_lock, heldResult, time_since_last_lease, hA]
      · exfalso
        simp only [tick, hA, eq_self_iff_true, if_true] at h
        rw [if_neg hF] at h
        simp only [renew_lock] at h
        by_cases hc : s.lease_renew_fail_count + 1 < s.lease_renew_threshold
        · rw [if_pos hc] at h
          simp at h
        · rw [if_neg hc] at h
          simp at h

/-- C3 witness: a fresh acquisition at time 5 from the released example
state. -/
theorem C3_wait_time_bound_witness :
    (tick initExample acquireTickInput).engineTicked = true ∧
    (tick initExample acquireTickInput).state.lease_lock_acquired = true :=
  ⟨by decide,
    (C3_wait_time_bound initExample acquireTickInput (by decide)).1⟩

/-- C8: each `tick` performs no backend operation when held with a fresh
lease, exactly one renew when held with a stale lease, and exactly one
acquire when released; hence at most one backend operation per invocation
and never both an acquire and a renew. -/
theorem C8_at_most_one_backend_op (s : Scheduler) (inp : TickInput) :
    (tick s inp).ops =
      (if s.lease_lock_acquired then
        (if time_since_last_lease s inp.now < (s.lease_interval : Rat) then
          ([] : List BackendOp)
        else [BackendOp.renew])
      else [BackendOp.acquire]) ∧
    (tick s inp).ops.length ≤ 1 ∧
    ¬(BackendOp.acquire ∈ (tick s inp).ops ∧
      BackendOp.renew ∈ (tick s inp).ops) := by
  obtain ⟨now, aout, rout, sup⟩ := inp
  cases hA : s.lease_lock_acquired <;> cases aout <;> cases rout <;>
    by_cases hF : time_since_last_lease s now < (s.lease_interval : Rat) <;>
    simp [tick, hA, hF, acquire_lock, renew_lock, heldResult] <;>
    split <;> simp

end CeleryLeasedBeat
